import Mathlib

/-!
# Transaction middleware chain — shallow embedding

A shallow embedding of the `middleware` package of this repository: the
three-mode handler contract, the four middlewares (`ValidateBasicMiddleware`,
`TxTimeoutHeightMiddleware`, `ValidateMemoMiddleware`,
`ConsumeTxSizeGasMiddleware`), the recursive signature-completeness test
`isIncompleteSignature`, and chain composition. Machine `uint64` arithmetic is
modelled as `Nat` reduced modulo `2 ^ 64`; the Go `int64` block height is an
`Int`. The gas meter is modelled as the list of `ConsumeGas` events it has
recorded (amount, descriptor), in order: consuming gas appends an event.
External collaborators (the legacy amino codec, the account/parameter store)
are modelled as data supplied per call, following the spec's interface
description.
-/

namespace Middleware

/-- Go `uint64` truncation: reduce a `Nat` modulo `2 ^ 64`, as every `uint64`
product or sum in the source is implicitly reduced. -/
def w64 (n : Nat) : Nat := n % 2 ^ 64

/-- Go `uint64(b)` conversion of an `int64` value `b`: two's-complement
reinterpretation, i.e. the representative of `b` modulo `2 ^ 64`. -/
def uint64OfInt (b : Int) : Nat := (b % (2 ^ 64 : Int)).toNat

/-- Signer address (`sdk.AccAddress`), abstracted to a number. -/
abbrev Address := Nat

/-- The gas descriptor the stage passes to every `ConsumeGas` call. -/
def txSizeDesc : String := "txSize"

/-- Decode-error message of the timeout stage. -/
def timeoutCapabilityMsg : String := "expected tx to implement TxWithTimeoutHeight"

/-- Decode-error message of the memo stage. -/
def memoCapabilityMsg : String := "invalid transaction type"

/-- Decode-error message of the gas stage. -/
def sigCapabilityMsg : String := "invalid tx type"

/-- A 3-byte ASCII memo fixture. -/
def memoAbc : String := "abc"

/-- A one-character, two-byte memo fixture. -/
def memoAccent : String := "é"

/-- Chain parameters read from the account keeper (`ak.GetParams`):
`MaxMemoCharacters`, `TxSizeCostPerByte`, `TxSigLimit`, all Go `uint64`. -/
structure Params where
  maxMemoCharacters : Nat
  txSizeCostPerByte : Nat
  txSigLimit : Nat
deriving DecidableEq

/-- Modelled from the spec: the legacy amino codec (`legacy.Cdc`) that
serializes the mock `legacytx.StdSignature` record is an external collaborator
("the underlying codec/serialization of signatures" is out of scope), so a
public key is abstracted by the two facts the gas stage consumes: whether the
key is a `*multisig.LegacyAminoPubKey` aggregate, and the byte length of the
serialized `StdSignature` record pairing the fixed placeholder signature
`simSecp256k1Sig` with this key. -/
structure PubKey where
  isMultisigAggregate : Bool
  stdSigSerializedSize : Nat
deriving DecidableEq

/-- Modelled from the spec: the fixed process-wide placeholder public key
`simSecp256k1Pubkey`, "representative of the default signature scheme"
(secp256k1, hence not a multisig aggregate); its serialized mock-signature
size is a fixed constant of the external codec, taken here as the spec's
representative 70 bytes. No claim depends on the numeric value. -/
def simSecp256k1Pubkey : PubKey :=
  { isMultisigAggregate := false, stdSigSerializedSize := 70 }

/-- An on-chain account: exposes an optional public key (`acc.GetPubKey()`
may be `nil`). -/
structure Account where
  pubKey : Option PubKey
deriving DecidableEq

/-- `signing.SignatureData`: `Single` carries a raw signature byte sequence,
`Multi` carries an ordered sequence of nested signature data, where each
member is an interface value that may be `nil` (hence `Option`). -/
inductive SignatureData where
  | single (signature : List Nat)
  | multi (signatures : List (Option SignatureData))

mutual

/-- `isIncompleteSignature`: tests whether `SignatureData` is fully filled in
for simulation purposes. `nil` data, a `Single` with an empty signature, a
`Multi` with no members, and a `Multi` with an incomplete member are
incomplete; everything else is complete. -/
def isIncompleteSignature : Option SignatureData → Bool
  | none => true
  | some (.single s) => s.isEmpty
  | some (.multi sigs) => sigs.isEmpty || anyIncompleteSignature sigs

/-- The `for` loop inside `isIncompleteSignature` over the members of a
`MultiSignatureData`: true when some member is incomplete. -/
def anyIncompleteSignature : List (Option SignatureData) → Bool
  | [] => false
  | s :: rest => isIncompleteSignature s || anyIncompleteSignature rest

end

/-- Error kinds surfaced by or passed through the middlewares, carrying the
diagnostic values the source formats into the wrapped error; `other` stands
for an arbitrary error produced outside this package (by the transaction's
own `ValidateBasic` or by `GetSignaturesV2`) and propagated verbatim. -/
inductive ErrKind where
  | txDecode (msg : String)
  | txTimeoutHeight (blockHeight : Int) (timeoutHeight : Nat)
  | memoTooLarge (maxChars : Nat) (actual : Nat)
  | other (msg : String)
deriving DecidableEq

/-- The signature-holding view of a transaction (`authsigning.SigVerifiableTx`):
an ordered signer list (`GetSigners`) and the result of `GetSignaturesV2`,
which may fail; a successful result is the ordered list of the `Data` fields
of the returned `SignatureV2` records (interface values, possibly `nil`). -/
structure SigTxInfo where
  signers : List Address
  signaturesV2 : Except ErrKind (List (Option SignatureData))

/-- A transaction (`sdk.Tx`), polymorphic over optional capabilities:
`validateBasic` is the outcome of the mandatory `ValidateBasic` self-check
(`some e` = the error it returns, of any kind, opaque to the stage);
`timeoutHeight` is `some h` exactly when the value implements
`TxWithTimeoutHeight`; `memo` is `some s` exactly when it implements
`sdk.TxWithMemo`; `sigInfo` is `some info` exactly when it implements
`authsigning.SigVerifiableTx`. -/
structure Tx where
  validateBasic : Option ErrKind
  timeoutHeight : Option Nat
  memo : Option String
  sigInfo : Option SigTxInfo

/-- The request context (`sdk.Context` unwrapped from `ctx`): current block
height (Go `int64`, hence `Int`), the recheck flag, and the raw serialized
transaction bytes. The gas meter is threaded separately as explicit state. -/
structure SdkContext where
  blockHeight : Int
  isReCheckTx : Bool
  txBytes : List Nat

/-- The account/parameter store (`AccountKeeper`): `GetParams` and
`GetAccount`, both reading the state carried by the context. -/
structure AccountKeeper where
  getParams : SdkContext → Params
  getAccount : SdkContext → Address → Option Account

/-- One `ConsumeGas` call recorded by the gas meter: amount and descriptor. -/
structure GasEvent where
  amount : Nat
  descriptor : String
deriving DecidableEq

/-- The gas meter, modelled by the ordered list of `ConsumeGas` events it has
recorded so far. -/
abbrev GasMeter := List GasEvent

/-- `GasMeter().ConsumeGas(amount, descriptor)`: record one more event. -/
def consumeGas (m : GasMeter) (amount : Nat) (descriptor : String) : GasMeter :=
  m ++ [{ amount := amount, descriptor := descriptor }]

/-- An opaque mode-specific response produced by the terminal handler and
passed through unchanged by every middleware. -/
structure Resp where
  val : Nat
deriving DecidableEq

/-- Outcome of one handler call: the final gas-meter state (the meter is
mutable context, so its consumption up to an error persists) together with
either a response or the error that aborted the chain. -/
abbrev Outcome := GasMeter × Except ErrKind Resp

/-- The three-method handler contract (`tx.Handler`): `CheckTx`, `DeliverTx`
and `SimulateTx`, each taking the request context, the transaction and the
current gas-meter state. -/
structure Handler where
  checkTx : SdkContext → Tx → GasMeter → Outcome
  deliverTx : SdkContext → Tx → GasMeter → Outcome
  simulateTx : SdkContext → Tx → GasMeter → Outcome

/-- The three request modes. -/
inductive Mode where
  | check
  | deliver
  | simulate
deriving DecidableEq

/-- Dispatch a handler on a mode: `check` selects `CheckTx`, `deliver`
selects `DeliverTx`, `simulate` selects `SimulateTx`. -/
def Handler.run (h : Handler) : Mode → SdkContext → Tx → GasMeter → Outcome
  | .check => h.checkTx
  | .deliver => h.deliverTx
  | .simulate => h.simulateTx

/-- A middleware (`tx.Middleware`): a function wrapping a handler to produce
a new handler. -/
abbrev MiddlewareFn := Handler → Handler

/-- `ValidateBasicMiddleware`: calls `tx.ValidateBasic` and returns any
non-nil error; on `CheckTx` the check is skipped when the context reports a
recheck; on success the next handler is called unchanged. -/
def ValidateBasicMiddleware (txh : Handler) : Handler where
  checkTx := fun ctx t m =>
    if ctx.isReCheckTx then
      txh.checkTx ctx t m
    else
      match t.validateBasic with
      | some e => (m, .error e)
      | none => txh.checkTx ctx t m
  deliverTx := fun ctx t m =>
    match t.validateBasic with
    | some e => (m, .error e)
    | none => txh.deliverTx ctx t m
  simulateTx := fun ctx t m =>
    match t.validateBasic with
    | some e => (m, .error e)
    | none => txh.simulateTx ctx t m

/-- `checkTimeout`: requires the `TxWithTimeoutHeight` capability (decode
error otherwise); fails with a timeout-height error when the declared timeout
is positive and the `uint64`-converted block height strictly exceeds it. The
error carries the (signed) block height and the timeout height, as the source
formats both into the message. -/
def checkTimeout (ctx : SdkContext) (t : Tx) : Option ErrKind :=
  match t.timeoutHeight with
  | none => some (.txDecode timeoutCapabilityMsg)
  | some timeoutHeight =>
    if timeoutHeight > 0 ∧ uint64OfInt ctx.blockHeight > timeoutHeight then
      some (.txTimeoutHeight ctx.blockHeight timeoutHeight)
    else
      none

/-- `TxTimeoutHeightMiddleware`: applies `checkTimeout` in every mode, then
delegates to the next handler. -/
def TxTimeoutHeightMiddleware (txh : Handler) : Handler where
  checkTx := fun ctx t m =>
    match checkTimeout ctx t with
    | some e => (m, .error e)
    | none => txh.checkTx ctx t m
  deliverTx := fun ctx t m =>
    match checkTimeout ctx t with
    | some e => (m, .error e)
    | none => txh.deliverTx ctx t m
  simulateTx := fun ctx t m =>
    match checkTimeout ctx t with
    | some e => (m, .error e)
    | none => txh.simulateTx ctx t m

/-- `checkForValidMemo`: requires `sdk.TxWithMemo` (decode error otherwise);
fetches the parameters for the current state and fails when the memo's byte
length (Go `len` of the memo string, i.e. its UTF-8 size) strictly exceeds
`MaxMemoCharacters`, carrying the limit and the actual length. -/
def checkForValidMemo (ak : AccountKeeper) (ctx : SdkContext) (t : Tx) : Option ErrKind :=
  match t.memo with
  | none => some (.txDecode memoCapabilityMsg)
  | some memo =>
    let params := ak.getParams ctx
    let memoLength := memo.utf8ByteSize
    if memoLength > params.maxMemoCharacters then
      some (.memoTooLarge params.maxMemoCharacters memoLength)
    else
      none

/-- `ValidateMemoMiddleware`: applies `checkForValidMemo` in every mode, then
delegates to the next handler. -/
def ValidateMemoMiddleware (ak : AccountKeeper) : MiddlewareFn := fun txh =>
  { checkTx := fun ctx t m =>
      match checkForValidMemo ak ctx t with
      | some e => (m, .error e)
      | none => txh.checkTx ctx t m
    deliverTx := fun ctx t m =>
      match checkForValidMemo ak ctx t with
      | some e => (m, .error e)
      | none => txh.deliverTx ctx t m
    simulateTx := fun ctx t m =>
      match checkForValidMemo ak ctx t with
      | some e => (m, .error e)
      | none => txh.simulateTx ctx t m }

/-- Resolve the public key used to mock a signature for a signer: the
account's key when the account exists and exposes one, the fixed placeholder
`simSecp256k1Pubkey` otherwise. -/
def resolvePubKey (ak : AccountKeeper) (ctx : SdkContext) (signer : Address) : PubKey :=
  match ak.getAccount ctx signer with
  | none => simSecp256k1Pubkey
  | some acc =>
    match acc.pubKey with
    | none => simSecp256k1Pubkey
    | some pk => pk

/-- The per-signer simulated signature cost: the serialized size of the mock
`StdSignature` plus 6, multiplied (in `uint64` arithmetic) by `TxSigLimit`
when the resolved key is a legacy multisig aggregate. -/
def simSigGasCost (params : Params) (pubkey : PubKey) : Nat :=
  let cost := w64 (pubkey.stdSigSerializedSize + 6)
  if pubkey.isMultisigAggregate then w64 (cost * params.txSigLimit) else cost

/-- The `for i, signer := range sigTx.GetSigners()` loop of `SimulateTx`:
skip a signer whose signature exists at its position and is complete;
otherwise consume `TxSizeCostPerByte * cost` gas for it, labelled `txSize`. -/
def consumeSimSigGas (ak : AccountKeeper) (ctx : SdkContext) (params : Params)
    (sigs : List (Option SignatureData)) :
    List Address → Nat → GasMeter → GasMeter
  | [], _, m => m
  | signer :: rest, i, m =>
    if i < sigs.length ∧ isIncompleteSignature (sigs.getD i none) = false then
      consumeSimSigGas ak ctx params sigs rest (i + 1) m
    else
      let pubkey := resolvePubKey ak ctx signer
      let cost := simSigGasCost params pubkey
      consumeSimSigGas ak ctx params sigs rest (i + 1)
        (consumeGas m (w64 (params.txSizeCostPerByte * cost)) txSizeDesc)

/-- `ConsumeTxSizeGasMiddleware`: in every mode, requires
`authsigning.SigVerifiableTx` (decode error otherwise), then consumes
`TxSizeCostPerByte * len(TxBytes)` gas labelled `txSize`; in simulate mode it
additionally walks the signer list charging the mocked signature cost for
each signer whose signature is missing or incomplete, propagating any error
from `GetSignaturesV2`. -/
def ConsumeTxSizeGasMiddleware (ak : AccountKeeper) : MiddlewareFn := fun txh =>
  { checkTx := fun ctx t m =>
      match t.sigInfo with
      | none => (m, .error (.txDecode sigCapabilityMsg))
      | some _ =>
        let params := ak.getParams ctx
        let m := consumeGas m (w64 (params.txSizeCostPerByte * ctx.txBytes.length)) txSizeDesc
        txh.checkTx ctx t m
    deliverTx := fun ctx t m =>
      match t.sigInfo with
      | none => (m, .error (.txDecode sigCapabilityMsg))
      | some _ =>
        let params := ak.getParams ctx
        let m := consumeGas m (w64 (params.txSizeCostPerByte * ctx.txBytes.length)) txSizeDesc
        txh.deliverTx ctx t m
    simulateTx := fun ctx t m =>
      match t.sigInfo with
      | none => (m, .error (.txDecode sigCapabilityMsg))
      | some sigTx =>
        let params := ak.getParams ctx
        let m := consumeGas m (w64 (params.txSizeCostPerByte * ctx.txBytes.length)) txSizeDesc
        match sigTx.signaturesV2 with
        | .error e => (m, .error e)
        | .ok sigs =>
          let m := consumeSimSigGas ak ctx params sigs sigTx.signers 0 m
          txh.simulateTx ctx t m }

/-- Modelled from the spec: chain composition ("chains are built by folding a
list of these wrappers over a terminal handler, outermost-first") lives
outside the given source file; the first constructor in the list becomes the
outermost wrapper. -/
def ComposeMiddlewares : List MiddlewareFn → Handler → Handler
  | [], term => term
  | mw :: rest, term => mw (ComposeMiddlewares rest term)

/-! ## Specification-side definitions

These follow the spec's and claims' wording, to be compared with the
definitions above that were translated from the source. -/

/-- The spec's recursive incompleteness definition, as an inductive predicate:
a signature datum is incomplete exactly when it is absent (`nil`), a `Single`
with an empty signature byte sequence, a `Multi` with an empty member
sequence, or a `Multi` with at least one incomplete member. -/
inductive IncompleteSig : Option SignatureData → Prop where
  | absent : IncompleteSig none
  | emptySingle : IncompleteSig (some (.single []))
  | emptyMulti : IncompleteSig (some (.multi []))
  | multiMember (sigs : List (Option SignatureData)) (s : Option SignatureData) :
      s ∈ sigs → IncompleteSig s → IncompleteSig (some (.multi sigs))

/-- Per the claim's wording, the gas charged in simulate mode for one signer
whose signature is absent or incomplete: `txSizeCostPerByte × cost` where
`cost` is the serialized size of the placeholder legacy signature record
paired with the signer's resolved public key, plus 6, first multiplied by
`txSigLimit` when the resolved key is a legacy multisig aggregate; the
placeholder key is used exactly when the account is absent or its public key
is unknown. All arithmetic in `uint64`. -/
def specSimCharge (ak : AccountKeeper) (ctx : SdkContext) (params : Params)
    (signer : Address) : Nat :=
  let pk :=
    match ak.getAccount ctx signer with
    | none => simSecp256k1Pubkey
    | some acc => acc.pubKey.getD simSecp256k1Pubkey
  let cost := w64 (pk.stdSigSerializedSize + 6)
  let cost := if pk.isMultisigAggregate then w64 (cost * params.txSigLimit) else cost
  w64 (params.txSizeCostPerByte * cost)

/-- Per the claim's wording, the sequence of per-signer gas events recorded in
simulate mode, over the position-indexed signer list: position `i`
contributes nothing when a signature exists at `i` and is complete, and
otherwise contributes one `txSize`-labelled event of `specSimCharge` for the
signer at position `i`. -/
def specSimEvents (ak : AccountKeeper) (ctx : SdkContext) (params : Params)
    (sigs : List (Option SignatureData)) (signers : List Address) : List GasEvent :=
  signers.enum.filterMap fun p =>
    if p.1 < sigs.length ∧ isIncompleteSignature (sigs.getD p.1 none) = false then
      none
    else
      some { amount := specSimCharge ak ctx params p.2, descriptor := txSizeDesc }

/-- The continuation of the gas-metering stage after its unconditional base
charge, per mode: `check` and `deliver` go straight to the next handler;
`simulate` first retrieves the signatures (propagating a retrieval error) and
runs the per-signer estimation loop. Used to state that in every mode the
stage behaves as "charge the base amount, then continue". -/
def afterBaseCharge (ak : AccountKeeper) (txh : Handler) :
    Mode → SdkContext → Tx → GasMeter → Outcome
  | .check, ctx, t, m => txh.checkTx ctx t m
  | .deliver, ctx, t, m => txh.deliverTx ctx t m
  | .simulate, ctx, t, m =>
    match t.sigInfo with
    | none => (m, .error (.txDecode sigCapabilityMsg))
    | some sigTx =>
      match sigTx.signaturesV2 with
      | .error e => (m, .error e)
      | .ok sigs =>
        txh.simulateTx ctx t
          (consumeSimSigGas ak ctx (ak.getParams ctx) sigs sigTx.signers 0 m)

/-! ## Concrete fixtures for witnesses and counterexamples -/

/-- A terminal handler standing in for the execution engine: succeeds in
every mode with a fixed response, consuming no gas. -/
def termHandler : Handler where
  checkTx := fun _ _ m => (m, .ok { val := 0 })
  deliverTx := fun _ _ m => (m, .ok { val := 0 })
  simulateTx := fun _ _ m => (m, .ok { val := 0 })

/-- A keeper fixture: `MaxMemoCharacters = 256`, `TxSizeCostPerByte = 10`,
`TxSigLimit = 7`; address 1 has an on-chain account with a known non-multisig
key whose mock signature serializes to 70 bytes; address 2 has an account
with a multisig aggregate key of mock size 81; address 3 has an account with
no known key; other addresses have no account. -/
def akFix : AccountKeeper where
  getParams := fun _ =>
    { maxMemoCharacters := 256, txSizeCostPerByte := 10, txSigLimit := 7 }
  getAccount := fun _ a =>
    if a = 1 then some { pubKey := some { isMultisigAggregate := false, stdSigSerializedSize := 70 } }
    else if a = 2 then some { pubKey := some { isMultisigAggregate := true, stdSigSerializedSize := 81 } }
    else if a = 3 then some { pubKey := none }
    else none

/-- A context fixture: block height 101, not a recheck, a 5-byte raw
transaction. -/
def ctxFix : SdkContext where
  blockHeight := 101
  isReCheckTx := false
  txBytes := [0, 1, 2, 3, 4]

/-- A context fixture with the negative block height `-1`. -/
def ctxNeg : SdkContext where
  blockHeight := -1
  isReCheckTx := false
  txBytes := []

/-- A transaction fixture exposing every capability: passes `ValidateBasic`,
timeout height 100, a 3-character memo, two signers of which the first has a
complete single signature and the second has none. -/
def txFix : Tx where
  validateBasic := none
  timeoutHeight := some 100
  memo := some memoAbc
  sigInfo := some
    { signers := [9, 1]
      signaturesV2 := .ok [some (.single [42]), none] }

/-- A transaction fixture implementing none of the optional capabilities. -/
def txBare : Tx where
  validateBasic := none
  timeoutHeight := none
  memo := none
  sigInfo := none

/-- A transaction fixture with the maximal `uint64` timeout height. -/
def txMaxTimeout : Tx where
  validateBasic := none
  timeoutHeight := some (2 ^ 64 - 1)
  memo := none
  sigInfo := none

/-- A keeper fixture whose memo limit is a single character. -/
def akMemo1 : AccountKeeper where
  getParams := fun _ =>
    { maxMemoCharacters := 1, txSizeCostPerByte := 10, txSigLimit := 7 }
  getAccount := fun _ _ => none

/-- A transaction fixture whose memo is one 2-byte UTF-8 character. -/
def txAccent : Tx where
  validateBasic := none
  timeoutHeight := none
  memo := some memoAccent
  sigInfo := none

/-- The repository's middleware stack over the keeper fixture, in source
order: structural validation, timeout, memo, gas. -/
def stackFix : List MiddlewareFn :=
  [ValidateBasicMiddleware, TxTimeoutHeightMiddleware,
   ValidateMemoMiddleware akFix, ConsumeTxSizeGasMiddleware akFix]

/-! ## Theorems -/

/-- C3: the transaction's self-validation is skipped if and only if the mode
is admission-check and the context's recheck flag is set; in execution and
simulation it is always invoked regardless of the recheck flag, and any
validation error is returned verbatim without invoking the next handler. -/
theorem validateBasic_skipped_iff_recheck (txh : Handler) (mode : Mode)
    (ctx : SdkContext) (t : Tx) (m : GasMeter) :
    (ValidateBasicMiddleware txh).run mode ctx t m =
      if mode = Mode.check ∧ ctx.isReCheckTx = true then
        txh.run mode ctx t m
      else
        match t.validateBasic with
        | some e => (m, Except.error e)
        | none => txh.run mode ctx t m := by
  cases mode <;> cases hre : ctx.isReCheckTx <;> cases hv : t.validateBasic <;>
    simp [Handler.run, ValidateBasicMiddleware, hre, hv]

/-- C7: a stage whose required capability is missing from the transaction
returns a decode error, leaves the gas meter untouched, and never invokes the
next handler (the outcome is the same for every `txh`), in every mode. -/
theorem missing_capability_decode_error (txh : Handler) (ak : AccountKeeper)
    (mode : Mode) (ctx : SdkContext) (m : GasMeter) (t₁ t₂ t₃ : Tx)
    (h₁ : t₁.timeoutHeight = none) (h₂ : t₂.memo = none)
    (h₃ : t₃.sigInfo = none) :
    (TxTimeoutHeightMiddleware txh).run mode ctx t₁ m
        = (m, Except.error (ErrKind.txDecode timeoutCapabilityMsg))
      ∧ (ValidateMemoMiddleware ak txh).run mode ctx t₂ m
        = (m, Except.error (ErrKind.txDecode memoCapabilityMsg))
      ∧ (ConsumeTxSizeGasMiddleware ak txh).run mode ctx t₃ m
        = (m, Except.error (ErrKind.txDecode sigCapabilityMsg)) := by
  refine ⟨?_, ?_, ?_⟩ <;> cases mode <;>
    simp [Handler.run, TxTimeoutHeightMiddleware, ValidateMemoMiddleware,
      ConsumeTxSizeGasMiddleware, checkTimeout, checkForValidMemo, h₁, h₂, h₃]

/-- Witness for C7: the capability-free transaction fixture makes all three
stages fail with their decode errors on an empty meter. -/
theorem missing_capability_decode_error_witness :
    txBare.timeoutHeight = none ∧ txBare.memo = none ∧ txBare.sigInfo = none
      ∧ ((TxTimeoutHeightMiddleware termHandler).run .check ctxFix txBare []
          = ([], Except.error (ErrKind.txDecode timeoutCapabilityMsg))
        ∧ (ValidateMemoMiddleware akFix termHandler).run .check ctxFix txBare []
          = ([], Except.error (ErrKind.txDecode memoCapabilityMsg))
        ∧ (ConsumeTxSizeGasMiddleware akFix termHandler).run .check ctxFix txBare []
          = ([], Except.error (ErrKind.txDecode sigCapabilityMsg))) :=
  ⟨rfl, rfl, rfl,
    missing_capability_decode_error termHandler akFix .check ctxFix [] txBare txBare txBare
      rfl rfl rfl⟩

/-- C5: for a transaction exposing a memo, the memo stage fails with a
memo-too-large error carrying the configured limit and the actual length if
and only if the memo's length strictly exceeds the limit fetched from the
parameter store; equality passes; the behavior is the same in all three
modes. -/
theorem memo_size_check (ak : AccountKeeper) (txh : Handler) (mode : Mode)
    (ctx : SdkContext) (t : Tx) (m : GasMeter) (memo : String)
    (hm : t.memo = some memo) :
    (ValidateMemoMiddleware ak txh).run mode ctx t m =
      if memo.utf8ByteSize > (ak.getParams ctx).maxMemoCharacters then
        (m, Except.error (ErrKind.memoTooLarge
          (ak.getParams ctx).maxMemoCharacters memo.utf8ByteSize))
      else
        txh.run mode ctx t m := by
  by_cases hgt : memo.utf8ByteSize > (ak.getParams ctx).maxMemoCharacters <;>
    cases mode <;>
      simp [Handler.run, ValidateMemoMiddleware, checkForValidMemo, hm, hgt]

/-- Witness for C5: the 3-byte memo fixture is within the 256-character limit
and the stage hands over to the terminal handler. -/
theorem memo_size_check_witness :
    txFix.memo = some memoAbc
      ∧ (ValidateMemoMiddleware akFix termHandler).run .check ctxFix txFix [] =
          (if memoAbc.utf8ByteSize > (akFix.getParams ctxFix).maxMemoCharacters then
            ([], Except.error (ErrKind.memoTooLarge
              (akFix.getParams ctxFix).maxMemoCharacters memoAbc.utf8ByteSize))
          else
            termHandler.run .check ctxFix txFix []) :=
  ⟨rfl, memo_size_check akFix termHandler .check ctxFix txFix [] memoAbc rfl⟩

/-- C10: the memo stage measures the memo by its UTF-8 byte length, not its
character count: a memo whose character count is within the limit but whose
byte length exceeds it is rejected, and the actual value carried in the error
is the byte length. -/
theorem memo_measured_in_bytes (ak : AccountKeeper) (txh : Handler) (mode : Mode)
    (ctx : SdkContext) (t : Tx) (m : GasMeter) (memo : String)
    (hm : t.memo = some memo)
    (hchars : memo.length ≤ (ak.getParams ctx).maxMemoCharacters)
    (hbytes : memo.utf8ByteSize > (ak.getParams ctx).maxMemoCharacters) :
    (ValidateMemoMiddleware ak txh).run mode ctx t m =
      (m, Except.error (ErrKind.memoTooLarge
        (ak.getParams ctx).maxMemoCharacters memo.utf8ByteSize)) := by
  cases mode <;>
    simp [Handler.run, ValidateMemoMiddleware, checkForValidMemo, hm, hbytes]

/-- Witness for C10: the memo `"é"` is one character but two UTF-8 bytes, so
it exceeds the one-character limit fixture and is rejected with actual
length 2. -/
theorem memo_measured_in_bytes_witness :
    txAccent.memo = some memoAccent
      ∧ memoAccent.length ≤ (akMemo1.getParams ctxFix).maxMemoCharacters
      ∧ memoAccent.utf8ByteSize > (akMemo1.getParams ctxFix).maxMemoCharacters
      ∧ (ValidateMemoMiddleware akMemo1 termHandler).run .check ctxFix txAccent [] =
          ([], Except.error (ErrKind.memoTooLarge
            (akMemo1.getParams ctxFix).maxMemoCharacters memoAccent.utf8ByteSize)) :=
  ⟨rfl, by decide, by decide,
    memo_measured_in_bytes akMemo1 termHandler .check ctxFix txAccent [] memoAccent
      rfl (by decide) (by decide)⟩

/-- Counterexample for C4 as stated: at block height `-1` (a valid `int64`
height) and timeout height 100, the stage fails with a timeout error although
`b > h` is false, because the height is converted to `uint64` before the
comparison. -/
theorem timeout_check_neg_height_cex :
    (TxTimeoutHeightMiddleware termHandler).run .check ctxNeg txFix []
        = ([], Except.error (ErrKind.txTimeoutHeight (-1) 100))
      ∧ ¬ ((-1 : Int) > (100 : Int)) := by
  constructor
  · simp [Handler.run, TxTimeoutHeightMiddleware, checkTimeout, txFix, ctxNeg,
      uint64OfInt]
  · decide

/-- C4 (amended to nonnegative block heights): for a transaction exposing
timeout height `h` and a nonnegative current block height, the timeout stage
fails with a timeout error carrying both heights if and only if `h > 0` and
the block height exceeds `h`; `h = 0` never fails; the check is identical in
all three modes with no recheck exemption. -/
theorem timeout_check_nonneg_height (txh : Handler) (mode : Mode)
    (ctx : SdkContext) (t : Tx) (m : GasMeter) (h : Nat)
    (hb₀ : 0 ≤ ctx.blockHeight) (hb₁ : ctx.blockHeight < 2 ^ 63)
    (ht : t.timeoutHeight = some h) :
    (TxTimeoutHeightMiddleware txh).run mode ctx t m =
      if h > 0 ∧ ctx.blockHeight.toNat > h then
        (m, Except.error (ErrKind.txTimeoutHeight ctx.blockHeight h))
      else
        txh.run mode ctx t m := by
  have hconv : uint64OfInt ctx.blockHeight = ctx.blockHeight.toNat := by
    unfold uint64OfInt
    rw [Int.emod_eq_of_lt hb₀ (by omega)]
  by_cases hc : h > 0 ∧ ctx.blockHeight.toNat > h
  · have hct : checkTimeout ctx t = some (ErrKind.txTimeoutHeight ctx.blockHeight h) := by
      simp only [checkTimeout, ht, hconv, if_pos hc]
    cases mode <;>
      simp only [Handler.run, TxTimeoutHeightMiddleware, hct, if_pos hc]
  · have hct : checkTimeout ctx t = none := by
      simp only [checkTimeout, ht, hconv, if_neg hc]
    cases mode <;>
      simp only [Handler.run, TxTimeoutHeightMiddleware, hct, if_neg hc]

/-- Witness for C4: the spec's scenario B — timeout height 100 at block
height 101 fails with a timeout error carrying both heights. -/
theorem timeout_check_nonneg_height_witness :
    (0 ≤ ctxFix.blockHeight ∧ ctxFix.blockHeight < 2 ^ 63
        ∧ txFix.timeoutHeight = some 100)
      ∧ (TxTimeoutHeightMiddleware termHandler).run .deliver ctxFix txFix [] =
          (if (100 : Nat) > 0 ∧ ctxFix.blockHeight.toNat > 100 then
            ([], Except.error (ErrKind.txTimeoutHeight ctxFix.blockHeight 100))
          else
            termHandler.run .deliver ctxFix txFix []) :=
  ⟨⟨by decide, by decide, rfl⟩,
    timeout_check_nonneg_height termHandler .deliver ctxFix txFix [] 100
      (by decide) (by decide) rfl⟩

/-- Counterexample for C9 as stated: at block height `-1` the converted
height is `2 ^ 64 - 1`, which is not strictly greater than the maximal
`uint64` timeout height `2 ^ 64 - 1`, so the stage passes the transaction to
the next handler instead of failing. -/
theorem timeout_neg_height_max_timeout_cex :
    ctxNeg.blockHeight < 0 ∧ 0 < (2 ^ 64 - 1 : Nat)
      ∧ (TxTimeoutHeightMiddleware termHandler).run .check ctxNeg txMaxTimeout []
          = ([], Except.ok { val := 0 }) := by
  refine ⟨by decide, by decide, ?_⟩
  simp [Handler.run, TxTimeoutHeightMiddleware, checkTimeout, txMaxTimeout,
    ctxNeg, uint64OfInt, termHandler]

/-- C9 (amended): for a negative `int64` block height `b` the conversion to
`uint64` wraps to `2 ^ 64 + b`, which is at least `2 ^ 63`; the actual block
height is below any positive timeout height `h`, yet whenever `h` is below
the wrapped value (in particular for every `h < 2 ^ 63`) the stage fails with
a timeout error. The claim as stated fails only for `h` at least the wrapped
value. -/
theorem timeout_neg_height_wraps (txh : Handler) (mode : Mode)
    (ctx : SdkContext) (t : Tx) (m : GasMeter) (h : Nat)
    (hb₀ : -(2 ^ 63) ≤ ctx.blockHeight) (hb₁ : ctx.blockHeight < 0)
    (ht : t.timeoutHeight = some h) (hpos : 0 < h) :
    2 ^ 63 ≤ uint64OfInt ctx.blockHeight
      ∧ ctx.blockHeight < (h : Int)
      ∧ (h < uint64OfInt ctx.blockHeight →
          (TxTimeoutHeightMiddleware txh).run mode ctx t m =
            (m, Except.error (ErrKind.txTimeoutHeight ctx.blockHeight h))) := by
  have hconv : uint64OfInt ctx.blockHeight = (ctx.blockHeight + 2 ^ 64).toNat := by
    unfold uint64OfInt
    congr 1
    omega
  refine ⟨by rw [hconv]; omega, by omega, fun hlt => ?_⟩
  cases mode <;>
    simp [Handler.run, TxTimeoutHeightMiddleware, checkTimeout, ht, hpos, hlt]

/-- Witness for C9: block height `-1` with timeout height 100 — the wrapped
height `2 ^ 64 - 1` is at least `2 ^ 63`, exceeds 100, and the stage fails
with a timeout error carrying `-1` and 100. -/
theorem timeout_neg_height_wraps_witness :
    (-(2 ^ 63) ≤ ctxNeg.blockHeight ∧ ctxNeg.blockHeight < 0
        ∧ txFix.timeoutHeight = some 100 ∧ 0 < 100)
      ∧ (2 ^ 63 ≤ uint64OfInt ctxNeg.blockHeight
        ∧ ctxNeg.blockHeight < (100 : Int)
        ∧ (100 < uint64OfInt ctxNeg.blockHeight →
            (TxTimeoutHeightMiddleware termHandler).run .check ctxNeg txFix [] =
              ([], Except.error (ErrKind.txTimeoutHeight ctxNeg.blockHeight 100)))) :=
  ⟨⟨by decide, by decide, rfl, by decide⟩,
    timeout_neg_height_wraps termHandler .check ctxNeg txFix [] 100
      (by decide) (by decide) rfl (by decide)⟩

/-- C2: for a signature-verifiable transaction, in each of the three modes
the gas-metering stage behaves as: first record exactly one gas event of
`txSizeCostPerByte * len(txBytes)` (in `uint64` arithmetic) labelled
`txSize`, then continue with the mode's remainder (`afterBaseCharge`, which
for admission-check and execution is the next handler directly). The charged
amount, label and position are the same expression in all three modes. -/
theorem txsize_base_gas (ak : AccountKeeper) (txh : Handler) (mode : Mode)
    (ctx : SdkContext) (t : Tx) (m : GasMeter) (info : SigTxInfo)
    (hsig : t.sigInfo = some info) :
    (ConsumeTxSizeGasMiddleware ak txh).run mode ctx t m =
      afterBaseCharge ak txh mode ctx t
        (consumeGas m
          (w64 ((ak.getParams ctx).txSizeCostPerByte * ctx.txBytes.length))
          txSizeDesc) := by
  cases mode <;>
    simp only [Handler.run, ConsumeTxSizeGasMiddleware, afterBaseCharge, hsig]

/-- Witness for C2: the two-signer fixture in admission-check mode charges
`10 * 5 = 50` base gas and reaches the terminal handler. -/
theorem txsize_base_gas_witness :
    txFix.sigInfo = some { signers := [9, 1],
                           signaturesV2 := .ok [some (.single [42]), none] }
      ∧ (ConsumeTxSizeGasMiddleware akFix termHandler).run .check ctxFix txFix [] =
          afterBaseCharge akFix termHandler .check ctxFix txFix
            (consumeGas []
              (w64 ((akFix.getParams ctxFix).txSizeCostPerByte * ctxFix.txBytes.length))
              txSizeDesc) :=
  ⟨rfl, txsize_base_gas akFix termHandler .check ctxFix txFix [] _ rfl⟩

/-- C8: chain construction is deterministic and pure — two handlers built by
applying the same ordered middleware list to the same terminal handler have
identical observable behavior on identical inputs. (Construction itself is a
total Lean function: it performs no effects and cannot fail.) -/
theorem chain_construction_deterministic (mws : List MiddlewareFn) (term : Handler)
    (h₁ h₂ : Handler) (e₁ : h₁ = ComposeMiddlewares mws term)
    (e₂ : h₂ = ComposeMiddlewares mws term)
    (mode : Mode) (ctx : SdkContext) (t : Tx) (m : GasMeter) :
    h₁.run mode ctx t m = h₂.run mode ctx t m := by
  rw [e₁, e₂]

/-- Witness for C8: two constructions of the repository's four-middleware
stack over the terminal handler agree on the full-capability fixture. -/
theorem chain_construction_deterministic_witness :
    (ComposeMiddlewares stackFix termHandler).run .check ctxFix txFix [] =
      (ComposeMiddlewares stackFix termHandler).run .check ctxFix txFix [] :=
  chain_construction_deterministic stackFix termHandler
    (ComposeMiddlewares stackFix termHandler) (ComposeMiddlewares stackFix termHandler)
    rfl rfl .check ctxFix txFix []

/-- An incomplete member makes the member loop report incompleteness. -/
theorem anyIncompleteSignature_of_mem {l : List (Option SignatureData)}
    {s : Option SignatureData} (hmem : s ∈ l)
    (hinc : isIncompleteSignature s = true) :
    anyIncompleteSignature l = true := by
  induction l with
  | nil => cases hmem
  | cons a rest ih =>
    rw [anyIncompleteSignature]
    rcases List.mem_cons.mp hmem with h | h
    · subst h
      rw [hinc, Bool.true_or]
    · rw [ih h, Bool.or_true]

mutual

/-- If the source's test reports a signature datum incomplete, the datum is
incomplete per the spec's recursive definition. -/
theorem isIncompleteSignature_sound : ∀ (d : Option SignatureData),
    isIncompleteSignature d = true → IncompleteSig d
  | none, _ => IncompleteSig.absent
  | some (.single []), _ => IncompleteSig.emptySingle
  | some (.single (b :: bs)), h => by
    rw [isIncompleteSignature] at h
    simp at h
  | some (.multi sigs), h => by
    rw [isIncompleteSignature] at h
    cases hemp : sigs.isEmpty with
    | true =>
      rw [List.isEmpty_iff.mp hemp]
      exact IncompleteSig.emptyMulti
    | false =>
      rw [hemp, Bool.false_or] at h
      obtain ⟨s, hmem, hs⟩ := anyIncompleteSignature_sound sigs h
      exact IncompleteSig.multiMember sigs s hmem hs

/-- If the member loop reports incompleteness, some member is incomplete per
the spec's recursive definition. -/
theorem anyIncompleteSignature_sound : ∀ (l : List (Option SignatureData)),
    anyIncompleteSignature l = true → ∃ s ∈ l, IncompleteSig s
  | [], h => by
    rw [anyIncompleteSignature] at h
    cases h
  | s :: rest, h => by
    rw [anyIncompleteSignature] at h
    cases hi : isIncompleteSignature s with
    | true =>
      exact ⟨s, List.mem_cons_self s rest, isIncompleteSignature_sound s hi⟩
    | false =>
      rw [hi, Bool.false_or] at h
      obtain ⟨x, hx, hxinc⟩ := anyIncompleteSignature_sound rest h
      exact ⟨x, List.mem_cons_of_mem s hx, hxinc⟩

end

/-- A datum incomplete per the spec's recursive definition is reported
incomplete by the source's test. -/
theorem isIncompleteSignature_complete {d : Option SignatureData}
    (hd : IncompleteSig d) : isIncompleteSignature d = true := by
  induction hd with
  | absent => rw [isIncompleteSignature]
  | emptySingle => simp [isIncompleteSignature]
  | emptyMulti => simp [isIncompleteSignature]
  | multiMember sigs s hmem _ ih =>
    rw [isIncompleteSignature, anyIncompleteSignature_of_mem hmem ih, Bool.or_true]

/-- The spec's per-signer charge agrees with the source's key resolution and
cost computation. -/
theorem specSimCharge_eq (ak : AccountKeeper) (ctx : SdkContext) (params : Params)
    (signer : Address) :
    specSimCharge ak ctx params signer =
      w64 (params.txSizeCostPerByte *
        simSigGasCost params (resolvePubKey ak ctx signer)) := by
  unfold specSimCharge simSigGasCost resolvePubKey
  cases hacc : ak.getAccount ctx signer with
  | none => rfl
  | some acc =>
    obtain ⟨opk⟩ := acc
    cases opk <;> rfl

/-- The signer loop of `SimulateTx` only appends events: starting at position
`i` with meter `m`, it ends with `m` extended by one event per signer whose
signature is missing or incomplete, in signer order. -/
theorem consumeSimSigGas_eq_append (ak : AccountKeeper) (ctx : SdkContext)
    (params : Params) (sigs : List (Option SignatureData)) :
    ∀ (signers : List Address) (i : Nat) (m : GasMeter),
      consumeSimSigGas ak ctx params sigs signers i m =
        m ++ (List.enumFrom i signers).filterMap (fun p =>
          if p.1 < sigs.length ∧
              isIncompleteSignature (sigs.getD p.1 none) = false then
            none
          else
            some { amount := specSimCharge ak ctx params p.2,
                   descriptor := txSizeDesc })
  | [], i, m => by simp [consumeSimSigGas]
  | signer :: rest, i, m => by
    have ih := consumeSimSigGas_eq_append ak ctx params sigs rest (i + 1)
    by_cases hc : i < sigs.length ∧ isIncompleteSignature (sigs.getD i none) = false
    · rw [consumeSimSigGas, if_pos hc, ih, List.enumFrom]
      simp only [List.filterMap_cons]
      rw [if_pos hc]
    · rw [consumeSimSigGas, if_neg hc, ih, List.enumFrom]
      simp only [List.filterMap_cons]
      rw [if_neg hc]
      simp only [consumeGas, specSimCharge_eq, List.append_assoc,
        List.singleton_append]

/-- C1: in simulate mode, after the base size charge, the gas-metering stage
appends exactly the spec's per-signer events: nothing for a signer whose
signature exists and is complete, and one `txSize` charge of
`txSizeCostPerByte × (serializedSize + 6)` — scaled by `txSigLimit` for a
multisig aggregate key, with the placeholder key used exactly when the
account is absent or keyless — for every other signer, before invoking the
next handler. -/
theorem simulate_signer_gas (ak : AccountKeeper) (txh : Handler)
    (ctx : SdkContext) (t : Tx) (m : GasMeter) (info : SigTxInfo)
    (sigs : List (Option SignatureData))
    (hsig : t.sigInfo = some info) (hsigs : info.signaturesV2 = .ok sigs) :
    (ConsumeTxSizeGasMiddleware ak txh).run .simulate ctx t m =
      txh.simulateTx ctx t
        ((consumeGas m
            (w64 ((ak.getParams ctx).txSizeCostPerByte * ctx.txBytes.length))
            txSizeDesc)
          ++ specSimEvents ak ctx (ak.getParams ctx) sigs info.signers) := by
  simp only [Handler.run, ConsumeTxSizeGasMiddleware, hsig, hsigs]
  rw [consumeSimSigGas_eq_append]
  rfl

/-- Witness for C1: two signers, the first with a complete single signature
(no extra charge), the second without a signature and resolving — via the
absent account at address 9 being unreachable, since signer 2 is address 1 —
to the known 70-byte non-multisig key, so the appended events are exactly one
charge of `10 × (70 + 6) = 760`. -/
theorem simulate_signer_gas_witness :
    txFix.sigInfo = some { signers := [9, 1],
                           signaturesV2 := .ok [some (.single [42]), none] }
      ∧ (ConsumeTxSizeGasMiddleware akFix termHandler).run .simulate ctxFix txFix [] =
          termHandler.simulateTx ctxFix txFix
            ((consumeGas []
                (w64 ((akFix.getParams ctxFix).txSizeCostPerByte *
                  ctxFix.txBytes.length))
                txSizeDesc)
              ++ specSimEvents akFix ctxFix (akFix.getParams ctxFix)
                  [some (.single [42]), none] [9, 1]) :=
  ⟨rfl, simulate_signer_gas akFix termHandler ctxFix txFix [] _ _ rfl rfl⟩

/-- C6: the signature-completeness test satisfies exactly the recursive
definition — a signature datum is incomplete if and only if it is absent, a
`Single` with an empty signature byte sequence, a `Multi` with an empty
member sequence, or a `Multi` with at least one incomplete member; all other
`Single` and `Multi` values are complete. -/
theorem isIncompleteSignature_iff_spec (d : Option SignatureData) :
    isIncompleteSignature d = true ↔ IncompleteSig d :=
  ⟨isIncompleteSignature_sound d, isIncompleteSignature_complete⟩

end Middleware
